import Mathlib

/-!
Verification of the Aliya WhatsApp health-assistant bot (src/index.js,
src/cohere.js and the database module) against its specification.

The JavaScript source is shallowly embedded: every handler becomes a pure
Lean function from the per-user session record (the object held in
`stateManager.states`) and the inbound message body to the new session
record plus the ordered list of outbound actions (replies, persistence
calls, reminder operations).  Results of collaborator calls that gate
branching (the stored user profile, AI-generated text, and whether each
persistence call succeeds or throws) are passed in as an `Env` record.
JavaScript-specific semantics that the handlers rely on are modelled
explicitly: `parseInt`/`parseFloat` returning NaN (as `Option`),
comparisons against `NaN`/`undefined` being false, `setState` merging
objects key by key, and `Date.prototype.setDate` renormalizing an
out-of-range day of month.
-/

namespace Aliya

/-! ## JavaScript string and number primitives -/

/-- The whitespace characters relevant to `String.prototype.trim` here
(space, tab, line feed, carriage return). -/
def isJsSpace (c : Char) : Bool :=
  c.toNat = 32 || c.toNat = 9 || c.toNat = 10 || c.toNat = 13

/-- A character matched by the regex class `\d`. -/
def jsIsDigit (c : Char) : Bool :=
  48 ≤ c.toNat && c.toNat ≤ 57

/-- `String.prototype.trim` (on the characters of `isJsSpace`). -/
def jsTrim (s : String) : String :=
  ⟨((s.toList.dropWhile isJsSpace).reverse.dropWhile isJsSpace).reverse⟩

/-- The numeric value of a digit character, as an integer. -/
def digitVal (c : Char) : Int :=
  (c.toNat : Int) - 48

/-- The value of a digit string read in base 10. -/
def digitsVal (l : List Char) : Int :=
  l.foldl (fun a c => a * 10 + digitVal c) 0

/-- JavaScript `parseInt(s)` (radix 10): skip leading whitespace, read an
optional sign and then the maximal run of digits; `none` models `NaN`
(no digits found). -/
def jsParseInt (s : String) : Option Int :=
  let cs := s.toList.dropWhile isJsSpace
  let sign : Int := if cs.head? = some '-' then -1 else 1
  let rest := if cs.head? = some '-' || cs.head? = some '+' then cs.tail else cs
  let digs := rest.takeWhile jsIsDigit
  if digs.isEmpty then none else some (sign * digitsVal digs)

/-- A JavaScript number produced by `parseFloat` on a decimal literal, kept
as mantissa and scale: the value is `mant / 10 ^ scale`.  The exact decimal
value stands in for the nearest binary double; the two only diverge on
inputs carrying more precision than a double holds, which no claim
involves.  The representation is not canonical ("165.50" and "165.5"
differ as `JsNum`), but no handler ever compares two parsed floats. -/
structure JsNum where
  mant : Int
  scale : Nat
deriving DecidableEq, Repr

/-- The value comparison `x < k` of a parsed float against an integer. -/
def JsNum.ltInt (x : JsNum) (k : Int) : Bool :=
  decide (x.mant < k * 10 ^ x.scale)

/-- The value comparison `x > k` of a parsed float against an integer. -/
def JsNum.gtInt (x : JsNum) (k : Int) : Bool :=
  decide (k * 10 ^ x.scale < x.mant)

/-- JavaScript `parseFloat(s)` on the decimal shapes the handlers feed it
(an optional sign, digits, an optional fraction; exponents are not used by
any call site, which are all guarded by `/^\d+(\.\d+)?$/`).  `none` models
`NaN`. -/
def jsParseFloat (s : String) : Option JsNum :=
  let cs := s.toList.dropWhile isJsSpace
  let rest := if cs.head? = some '-' || cs.head? = some '+' then cs.tail else cs
  let digs := rest.takeWhile jsIsDigit
  let afterDigs := rest.drop digs.length
  let frac := if afterDigs.head? = some '.' then afterDigs.tail.takeWhile jsIsDigit else []
  if digs.isEmpty && frac.isEmpty then none
  else
    let mant := digitsVal (digs ++ frac)
    some ⟨if cs.head? = some '-' then -mant else mant, frac.length⟩

/-- JavaScript `x < k` for an `x` that may be `NaN` or `undefined`
(comparison with either is false). -/
def jsLtI (x : Option Int) (k : Int) : Bool :=
  match x with
  | none => false
  | some v => decide (v < k)

/-- JavaScript `x > k` for an `x` that may be `NaN` or `undefined`. -/
def jsGtI (x : Option Int) (k : Int) : Bool :=
  match x with
  | none => false
  | some v => decide (k < v)

/-- JavaScript `x < k` on a possibly-`NaN` float. -/
def jsLtQ (x : Option JsNum) (k : Int) : Bool :=
  match x with
  | none => false
  | some v => v.ltInt k

/-- JavaScript `x > k` on a possibly-`NaN` float. -/
def jsGtQ (x : Option JsNum) (k : Int) : Bool :=
  match x with
  | none => false
  | some v => v.gtInt k

/-- The regex `/^\d+$/`. -/
def reAllDigits (s : String) : Bool :=
  !s.toList.isEmpty && s.toList.all jsIsDigit

/-- The regex `/^\d+(\.\d+)?$/`. -/
def reDecimal (s : String) : Bool :=
  let digs := s.toList.takeWhile jsIsDigit
  let rest := s.toList.drop digs.length
  !digs.isEmpty &&
    (rest.isEmpty ||
      (rest.head? = some '.' && !rest.tail.isEmpty && rest.tail.all jsIsDigit))

/-- The regex `/^[1-7]$/`. -/
def reDigit1to7 (s : String) : Bool :=
  match s.toList with
  | [c] => 49 ≤ c.toNat && c.toNat ≤ 55
  | _ => false

/-- The regex `/^[3-6]$/`. -/
def reDigit3to6 (s : String) : Bool :=
  match s.toList with
  | [c] => 51 ≤ c.toNat && c.toNat ≤ 54
  | _ => false

/-- The regex `/^\d{4}-\d{2}-\d{2}$/`. -/
def reIsoDate (s : String) : Bool :=
  match s.toList with
  | [y1, y2, y3, y4, h1, m1, m2, h2, d1, d2] =>
    jsIsDigit y1 && jsIsDigit y2 && jsIsDigit y3 && jsIsDigit y4 &&
      h1 = '-' && jsIsDigit m1 && jsIsDigit m2 && h2 = '-' &&
      jsIsDigit d1 && jsIsDigit d2
  | _ => false

/-- The regex `/^(2[1-9]|3[0-5])$/`. -/
def reCycleLen (s : String) : Bool :=
  match s.toList with
  | [a, b] =>
    (a = '2' && 49 ≤ b.toNat && b.toNat ≤ 57) ||
      (a = '3' && 48 ≤ b.toNat && b.toNat ≤ 53)
  | _ => false

/-- JavaScript `s.includes(sub)`. -/
def jsIncludes (s sub : String) : Bool :=
  decide (sub.toList <:+: s.toList)

/-- ASCII lowercasing of one character. -/
def jsToLowerChar (c : Char) : Char :=
  if 65 ≤ c.toNat ∧ c.toNat ≤ 90 then Char.ofNat (c.toNat + 32) else c

/-- `String.prototype.toLowerCase`, on the ASCII range (every comparison in
the source is against an ASCII keyword, so the non-ASCII case mappings are
irrelevant here). -/
def jsToLower (s : String) : String :=
  ⟨s.toList.map jsToLowerChar⟩

/-- The test of `/health|symptom|pain|doctor|medical/i` against `s`. -/
def healthKeywordTest (s : String) : Bool :=
  let l := jsToLower s
  jsIncludes l "health" || jsIncludes l "symptom" || jsIncludes l "pain" ||
    jsIncludes l "doctor" || jsIncludes l "medical"

/-- JavaScript template interpolation of a value that may be `undefined`. -/
def jsShowS : Option String → String
  | none => "undefined"
  | some s => s

/-- JavaScript `s.startsWith(pre)`. -/
def jsStartsWith (s pre : String) : Bool :=
  pre.toList.isPrefixOf s.toList

/-- The splitter behind JavaScript `s.split(' ')`, on character lists. -/
def jsSplitSpaceL : List Char → List (List Char)
  | [] => [[]]
  | c :: rest =>
    match jsSplitSpaceL rest with
    | [] => [[]]
    | h :: t => if c = ' ' then [] :: h :: t else (c :: h) :: t

/-- JavaScript `s.split(' ')`. -/
def jsSplitSpace (s : String) : List String :=
  (jsSplitSpaceL s.toList).map fun l => ⟨l⟩

/-- JavaScript `Number(s)` on the strings the handlers compare numerically
(single-digit meal frequencies); `none` models `NaN`, and the empty string
coerces to `0` as in the runtime. -/
def jsNumber (s : String) : Option Int :=
  let t := jsTrim s
  if t.toList.isEmpty then some 0
  else if reAllDigits t then some (digitsVal t.toList) else none

/-- JavaScript `x > k` where `x` is a string or `undefined` (numeric
coercion, false on `NaN`). -/
def jsStrGtNum (x : Option String) (k : Int) : Bool :=
  match x with
  | none => false
  | some s => jsGtI (jsNumber s) k

/-! ## JavaScript dates

A `Date` holding a UTC midnight is represented by its day count since
1970-01-01 (its millisecond value divided by 86 400 000; every date the
source builds is such a midnight).  The civil (year, month, day) view is
computed with the standard proleptic-Gregorian conversion, so
`Date.prototype.getDate` and `Date.prototype.setDate` — which reads the
current day of month and re-normalizes an out-of-range day — become pure
functions of the day count. -/

/-- The day count of the Gregorian date (y, m, d), days since 1970-01-01
(`days_from_civil`). -/
def daysFromCivil (y m d : Int) : Int :=
  let y2 := if m ≤ 2 then y - 1 else y
  let era := Int.fdiv y2 400
  let yoe := y2 - era * 400
  let mp := Int.emod (m + 9) 12
  let doy := Int.fdiv (153 * mp + 2) 5 + d - 1
  let doe := yoe * 365 + Int.fdiv yoe 4 - Int.fdiv yoe 100 + doy
  era * 146097 + doe - 719468

/-- The Gregorian (year, month, day) of a day count (`civil_from_days`). -/
def civilFromDays (z0 : Int) : Int × Int × Int :=
  let z := z0 + 719468
  let era := Int.fdiv z 146097
  let doe := z - era * 146097
  let yoe := Int.fdiv (doe - Int.fdiv doe 1460 + Int.fdiv doe 36524 - Int.fdiv doe 146096) 365
  let y := yoe + era * 400
  let doy := doe - (365 * yoe + Int.fdiv yoe 4 - Int.fdiv yoe 100)
  let mp := Int.fdiv (5 * doy + 2) 153
  let d := doy - Int.fdiv (153 * mp + 2) 5 + 1
  let m := mp + (if mp < 10 then 3 else -9)
  (if m ≤ 2 then y + 1 else y, m, d)

/-- A JavaScript `Date` at UTC midnight, as a day count. -/
abbrev JsDate := Int

/-- `Date.prototype.getDate` (UTC): the day of month. -/
def jsGetDate (t : JsDate) : Int :=
  (civilFromDays t).2.2

/-- `Date.prototype.setDate n`: move to day `n` of the date's current
month.  `n` may fall outside the month; the runtime renormalizes, which on
the day count is exactly "back to the first of the month, then forward
`n - 1` days". -/
def jsSetDate (t : JsDate) (n : Int) : JsDate :=
  t - jsGetDate t + n

/-- `new Date("YYYY-MM-DD")` (every call site guards the shape with
`/^\d{4}-\d{2}-\d{2}$/` first): the UTC midnight with those components. -/
def jsNewDate (s : String) : JsDate :=
  match s.toList with
  | [y1, y2, y3, y4, _, m1, m2, _, d1, d2] =>
    daysFromCivil (digitsVal [y1, y2, y3, y4]) (digitsVal [m1, m2]) (digitsVal [d1, d2])
  | _ => 0

/-- The weekday abbreviation of `Date.prototype.toDateString`
(day 0 = 1970-01-01 was a Thursday). -/
def jsDayName (t : JsDate) : String :=
  match Int.emod (t + 4) 7 with
  | 0 => "Sun"
  | 1 => "Mon"
  | 2 => "Tue"
  | 3 => "Wed"
  | 4 => "Thu"
  | 5 => "Fri"
  | _ => "Sat"

/-- The month abbreviation of `Date.prototype.toDateString`. -/
def jsMonthName (m : Int) : String :=
  match m with
  | 1 => "Jan"
  | 2 => "Feb"
  | 3 => "Mar"
  | 4 => "Apr"
  | 5 => "May"
  | 6 => "Jun"
  | 7 => "Jul"
  | 8 => "Aug"
  | 9 => "Sep"
  | 10 => "Oct"
  | 11 => "Nov"
  | _ => "Dec"

/-- A day of month as `toDateString` prints it, zero-padded to two digits. -/
def pad2 (n : Int) : String :=
  if n < 10 then "0" ++ toString n else toString n

/-- `Date.prototype.toDateString`, e.g. "Mon Jan 29 2024". -/
def jsToDateString (t : JsDate) : String :=
  let c := civilFromDays t
  jsDayName t ++ " " ++ jsMonthName c.2.1 ++ " " ++ pad2 c.2.2 ++ " " ++ toString c.1

/-! ## Data model

One `Session` mirrors the per-phone object held in `stateManager.states`
(src/index.js lines 46-75).  `setState` merges its argument key by key into
the stored object (`{ ...this.states.get(phone), ...state }`), so each
JavaScript `setState` call is translated as a Lean structure update of
exactly the keys it names; `cleanup` deletes the entry, and since
`getState` returns `{}` for a missing entry, deletion is an update to the
all-defaults session.  A flow key holds `null`/`undefined` (`none`) or an
object with the current step and the accumulated data. -/

/-- A row of the `users` table, as `db.getUserProfile` returns it. -/
structure Profile where
  name : String
  age : Int
  sex : String
  height : JsNum
  weight : JsNum
  medical_history : String
deriving DecidableEq, Repr

/-- The step names of the onboarding flow. -/
inductive OnbStep
  | name
  | age
  | sex
  | height
  | weight
  | medical_history
deriving DecidableEq, Repr

/-- The accumulating `data` object of the onboarding flow. -/
structure OnbData where
  name : Option String := none
  age : Option Int := none
  sex : Option String := none
  height : Option JsNum := none
  weight : Option JsNum := none
  medical_history : Option String := none
deriving DecidableEq, Repr

/-- The step names of the health assessment flow ('complete' included:
`handleAssessmentResponse` stores it before `askAssessmentQuestion`
finishes the flow). -/
inductive AssessStep
  | sleep
  | water
  | exercise
  | stress
  | diet
  | smoking
  | alcohol
  | complete
deriving DecidableEq, Repr

/-- The accumulating `data` object of the assessment flow. -/
structure AssessData where
  sleepHours : Option Int := none
  waterIntake : Option Int := none
  exerciseDays : Option Int := none
  stressLevel : Option Int := none
  dietQuality : Option Int := none
  smokes : Option String := none
  alcoholDrinks : Option Int := none
deriving DecidableEq, Repr

/-- The step names of the fitness flow. -/
inductive FitStep
  | goals
  | frequency
  | equipment
deriving DecidableEq, Repr

/-- The accumulating `data` object of the fitness flow (`frequency` is
stored as the raw body string, as in the source). -/
structure FitData where
  goals : Option String := none
  frequency : Option String := none
  equipment : Option String := none
deriving DecidableEq, Repr

/-- The step names of the meals flow. -/
inductive MealStep
  | preferences
  | allergies
  | frequency
deriving DecidableEq, Repr

/-- The accumulating `data` object of the meals flow. -/
structure MealData where
  preferences : Option String := none
  allergies : Option String := none
  frequency : Option String := none
deriving DecidableEq, Repr

/-- The step names of the cycle flow. -/
inductive CycleStep
  | last_period
  | length
deriving DecidableEq, Repr

/-- The accumulating `data` object of the cycle flow. -/
structure CycleData where
  lastPeriod : Option String := none
  cycleLength : Option String := none
deriving DecidableEq, Repr

/-- A flow key's value: the current step and the accumulated data. -/
structure Flow (σ δ : Type) where
  step : σ
  data : δ
deriving DecidableEq, Repr

/-- The per-phone session object of `stateManager.states`.  Absence from
the map is the all-defaults value (`getState` returns `{}`). -/
structure Session where
  awaitingConsent : Bool := false
  onboarding : Option (Flow OnbStep OnbData) := none
  onboardingComplete : Bool := false
  awaitingAssessmentChoice : Bool := false
  assessment : Option (Flow AssessStep AssessData) := none
  fitness : Option (Flow FitStep FitData) := none
  meals : Option (Flow MealStep MealData) := none
  cycle : Option (Flow CycleStep CycleData) := none
  lastAssessment : Option String := none
  reminderSent : Bool := false
  lastActivity : Option Int := none
deriving DecidableEq, Repr

/-- One outbound action of a handler, in emission order: a reply through
`safeReply`, a persistence call to the database module, or a reminder-timer
operation of `stateManager`. -/
inductive Act where
  | reply (text : String)
  | saveUserProfile (d : OnbData)
  | saveHealthAssessment (score : Int) (lifestyle_data : AssessData) (recommendations : String)
  | saveDiagnosis (symptoms conditions : String)
  | saveFitnessPlan (d : FitData)
  | saveMealPlan (d : MealData)
  | saveCycleData (d : CycleData)
  | setReminder (delayMs : Int)
  | clearReminder
deriving DecidableEq, Repr

/-- The collaborator results a single `handleMessage` call can observe:
the stored profile (`db.getUserProfile`), the texts the generation service
returns (each of its functions catches its own errors), the current
timestamp string, and whether each fallible persistence call succeeds
(`true`) or throws (`false`). -/
structure Env where
  user : Option Profile := none
  aiDiagnosis : String → String := fun _ => ""
  aiAnalysis : Option String := none
  aiPeriodTips : Option String := none
  aiAnswer : String → String := fun _ => ""
  nowIso : String := ""
  saveProfileOk : Bool := true
  saveAssessmentOk : Bool := true
  saveDiagnosisOk : Bool := true
  cohereSaveOk : Bool := true
  saveFitnessOk : Bool := true
  saveMealOk : Bool := true
  saveCycleOk : Bool := true

/-! ## Constants and pure helper functions (src/index.js lines 77-191) -/

/-- The TERMS_AND_CONDITIONS text. -/
def TERMS_AND_CONDITIONS : String :=
  "\n📜 *Terms and Disclaimer* 📜\n\n1. I am an AI health assistant, not a doctor.\n2. My advice should not replace professional medical care.\n3. Your data will be stored securely and used only for your health recommendations.\n4. By using this service, you agree to these terms.\n\nDo you accept these terms? (yes/no)\n"

/-- The AVAILABLE_SERVICES menu text. -/
def AVAILABLE_SERVICES : String :=
  "\n🩺 *Available Services*:\n\n1. /diagnose [symptoms] - Check possible conditions\n2. /fit - Start fitness program\n3. /meals - Get meal plans\n4. /cycle - Track menstrual cycle\n5. /data - View your health data\n6. /periodtips - Get menstrual health tips\n7. /help - Show this menu\n\nType any command or ask general health questions.\n"

/-- `calculateBMI` composed with the `.toFixed(1)` the caller applies:
weight / (height/100)² rendered with one decimal.  The source computes in
binary doubles and `toFixed` rounds the double's decimal expansion; here
the exact value is rounded half-up, which agrees on every input a claim
touches (the string feeds one reply and no branching). -/
def calculateBMI (height weight : JsNum) : String :=
  let n : Int := weight.mant * 10 ^ (2 * height.scale + 4)
  let d : Int := 10 ^ weight.scale * height.mant ^ 2
  let tenths : Int := Int.fdiv (20 * n + d) (2 * d)
  toString (Int.fdiv tenths 10) ++ "." ++ toString (Int.emod tenths 10)

/-- `calculateHealthScore` (src/index.js lines 108-118).  A field never
answered is `undefined`, and a JavaScript comparison against `undefined`
is false, hence the `Option` comparators. -/
def calculateHealthScore (data : AssessData) : Int :=
  let score : Int := 100
  let score := if jsLtI data.sleepHours 7 then score - 10 else score
  let score := if jsLtI data.waterIntake 8 then score - 5 else score
  let score := if jsLtI data.exerciseDays 3 then score - 15 else score
  let score := if jsGtI data.stressLevel 7 then score - 10 else score
  let score := if jsLtI data.dietQuality 5 then score - 10 else score
  let score := if data.smokes = some "yes" then score - 20 else score
  let score := if jsGtI data.alcoholDrinks 7 then score - 5 else score
  max 0 score

/-- `getHealthRecommendations` (src/index.js lines 120-124). -/
def getHealthRecommendations (score : Int) : String :=
  if score ≥ 80 then "Excellent health! Maintain your habits."
  else if score ≥ 60 then "Good health, but could improve in some areas."
  else "Consider lifestyle changes. Focus on sleep, diet and exercise."

/-- `generateFitnessPlan` (src/index.js lines 126-141).  `none` models the
TypeError thrown when `data.goals` is `undefined`
(`undefined.toLowerCase()` throws); on every reachable call the goals step
has run first. -/
def generateFitnessPlan (data : FitData) : Option String :=
  match data.goals with
  | none => none
  | some goals =>
    let plan := "🏋️ *Fitness Plan for " ++ goals ++ "*\n"
    let plan := plan ++ "Frequency: " ++ jsShowS data.frequency ++ " days/week\n"
    let plan :=
      if jsIncludes (jsToLower goals) "weight loss" then
        plan ++ "Cardio: 30-45 mins, 3-5x/week\n" ++ "Strength: Full body, 2-3x/week\n"
      else if jsIncludes (jsToLower goals) "muscle gain" then
        plan ++ "Strength: Split routine, 4-5x/week\n" ++ "Cardio: 20 mins, 2x/week\n"
      else
        plan ++ "Balanced: 3 days strength, 2 days cardio\n"
    some plan

/-- `generateMealPlan` (src/index.js lines 143-168); `none` models the
TypeError when `data.preferences` is `undefined`. -/
def generateMealPlan (data : MealData) : Option String :=
  match data.preferences with
  | none => none
  | some preferences =>
    let plan := "🍎 *Meal Plan (" ++ preferences ++ ")*\n"
    let plan := plan ++ "Meals per day: " ++ jsShowS data.frequency ++ "\n\n"
    let plan :=
      if jsIncludes (jsToLower preferences) "vegetarian" then
        plan ++ "Breakfast: Oatmeal with nuts and fruits\n" ++
          "Lunch: Quinoa salad with veggies\n" ++ "Dinner: Lentil curry with rice\n"
      else if jsIncludes (jsToLower preferences) "keto" then
        plan ++ "Breakfast: Eggs with avocado\n" ++
          "Lunch: Chicken with leafy greens\n" ++ "Dinner: Salmon with asparagus\n"
      else
        plan ++ "Breakfast: Whole grain toast with protein\n" ++
          "Lunch: Balanced plate with protein, carbs, veggies\n" ++
          "Dinner: Protein with vegetables and healthy carbs\n"
    let plan :=
      if jsStrGtNum data.frequency 3 then
        plan ++ "\nSnacks:\n" ++ "- Greek yogurt with berries\n" ++ "- Handful of nuts\n"
      else plan
    some plan

/-- The ovulation date of `calculateFertileWindow` (src/index.js line 184):
last period plus (cycle length − 14) days. -/
def ovulationDate (lastPeriod : JsDate) (cycleLength : Int) : JsDate :=
  jsSetDate lastPeriod (jsGetDate lastPeriod + (cycleLength - 14))

/-- The two window bounds of the router-side `calculateFertileWindow`
(src/index.js lines 182-191), before `toDateString` formatting:
start = ovulation − 5 days, end = ovulation + 1 day. -/
def calculateFertileWindowDates (lastPeriod : JsDate) (cycleLength : Int) : JsDate × JsDate :=
  let ovulationDay := ovulationDate lastPeriod cycleLength
  let startWindow := jsSetDate ovulationDay (jsGetDate ovulationDay - 5)
  let endWindow := jsSetDate ovulationDay (jsGetDate ovulationDay + 1)
  (startWindow, endWindow)

/-- `calculateFertileWindow` (src/index.js lines 182-191): the formatted
window string. -/
def calculateFertileWindow (lastPeriod : JsDate) (cycleLength : Int) : String :=
  let w := calculateFertileWindowDates lastPeriod cycleLength
  jsToDateString w.1 ++ " to " ++ jsToDateString w.2

/-- The next-period date of `generateCyclePredictions` (src/index.js lines
173-174): last period plus cycle length days. -/
def nextPeriodDate (lastPeriod : JsDate) (cycleLength : Int) : JsDate :=
  jsSetDate lastPeriod (jsGetDate lastPeriod + cycleLength)

/-- `generateCyclePredictions` (src/index.js lines 170-180).
`parseInt(data.cycleLength) || 28` falls back to 28 when the parse is NaN
or the value is 0 (both falsy). -/
def generateCyclePredictions (data : CycleData) : String :=
  let lastPeriod := jsNewDate (jsShowS data.lastPeriod)
  let cycleLength : Int :=
    match jsParseInt (jsShowS data.cycleLength) with
    | none => 28
    | some n => if n = 0 then 28 else n
  "📅 *Cycle Predictions*\n" ++
    "Next period: " ++ jsToDateString (nextPeriodDate lastPeriod cycleLength) ++ "\n" ++
    "Fertile window: " ++ calculateFertileWindow lastPeriod cycleLength ++ "\n"

namespace Db

/-- The database-side `calculateFertileWindow` (src/unnamed/part_000 lines
89-97), before `toISOString` formatting.  In the source
`ovulationDate.setDate(...)` MUTATES `ovulationDate` and returns the new
time value, so the `end` bound's `getDate() + 6` is applied to the date
already moved to ovulation − 5, not to the ovulation date. -/
def calculateFertileWindowDates (lastPeriod : JsDate) (cycleLength : Int) : JsDate × JsDate :=
  let ovulationDate := jsSetDate lastPeriod (jsGetDate lastPeriod + cycleLength - 14)
  let startW := jsSetDate ovulationDate (jsGetDate ovulationDate - 5)
  let endW := jsSetDate startW (jsGetDate startW + 6)
  (startW, endW)

/-- The database-side `calculateNextPeriod` (src/unnamed/part_000 lines
83-87). -/
def calculateNextPeriod (lastPeriod : JsDate) (cycleLength : Int) : JsDate :=
  jsSetDate lastPeriod (jsGetDate lastPeriod + cycleLength)

end Db

/-! ## Flow handlers (src/index.js lines 202-494)

Each handler returns the new session and the ordered outbound actions.
`stateManager.setState(phone, patch)` merges `patch` into the stored
object, so it is translated as a structure update of the keys the patch
names; `stateManager.cleanup(phone)` deletes the entry (the all-defaults
session) and clears any pending reminder. -/

/-- `handleNewUserGreeting` (lines 203-207). -/
def handleNewUserGreeting (s : Session) : Session × List Act :=
  ({s with awaitingConsent := true},
   [.reply "👋 Hello! I'm Aliya, your AI health assistant.",
    .reply TERMS_AND_CONDITIONS])

/-- `handleConsentResponse` (lines 209-228). -/
def handleConsentResponse (s : Session) (response : String) : Session × List Act :=
  let cleanResponse := jsTrim (jsToLower response)
  if cleanResponse = "yes" then
    ({s with awaitingConsent := false, onboarding := some ⟨.name, {}⟩},
     [.reply "Thank you! Let's create your profile. What's your full name?"])
  else if cleanResponse = "no" then
    ({},
     [.reply "I understand. Feel free to message me if you change your mind. Have a healthy day! 👋",
      .clearReminder])
  else
    (s, [.reply "Please respond with 'yes' or 'no'."])

/-- The question `askAssessmentQuestion` (lines 293-323) emits for each
step short of 'complete'. -/
def assessmentPrompt : AssessStep → String
  | .sleep => "How many hours do you sleep per night on average? (4-12)"
  | .water => "How many glasses of water do you drink daily? (1-20)"
  | .exercise => "How many days per week do you exercise? (0-7)"
  | .stress => "Rate your stress level (1-10, where 1 is lowest):"
  | .diet => "How would you rate your diet quality? (1-10, where 10 is healthiest):"
  | .smoking => "Do you smoke? (yes/no)"
  | .alcohol => "How many alcoholic drinks per week? (0-50)"
  | .complete => ""

/-- `initiateHealthAssessment` (lines 281-291), including the first
question `askAssessmentQuestion` then asks. -/
def initiateHealthAssessment (s : Session) : Session × List Act :=
  ({s with awaitingAssessmentChoice := false, assessment := some ⟨.sleep, {}⟩},
   [.reply "Great! Let's begin your health assessment...",
    .reply (assessmentPrompt .sleep)])

/-- `handleAssessmentChoice` (lines 253-279).  Note that only choice 1
clears `awaitingAssessmentChoice`; the source leaves the flag set on
choices 2 and 3. -/
def handleAssessmentChoice (s : Session) (choice : String) : Session × List Act :=
  let cleanChoice := jsTrim (jsToLower choice)
  if cleanChoice = "1" ∨ cleanChoice = "yes" ∨ cleanChoice = "now" then
    initiateHealthAssessment s
  else if cleanChoice = "2" ∨ cleanChoice = "later" ∨ cleanChoice = "remind me later" then
    (s, [.reply ("I'll remind you in 24 hours. " ++ AVAILABLE_SERVICES),
         .setReminder (24 * 60 * 60 * 1000)])
  else if cleanChoice = "3" ∨ cleanChoice = "no" then
    (s, [.reply AVAILABLE_SERVICES])
  else
    (s, [.reply "Please choose:\n1. Yes\n2. Remind me later\n3. No"])

/-- `completeHealthAssessment` (lines 462-486).  The score reply is sent
before `db.saveHealthAssessment`; when the save throws, the catch replies
and the state is left untouched (the flow stays at 'complete'). -/
def completeHealthAssessment (env : Env) (s : Session) : Session × List Act :=
  match s.assessment with
  | none => (s, [])
  | some a =>
    let score := calculateHealthScore a.data
    let scoreReply : Act :=
      .reply ("Your health score: " ++ toString score ++ "/100\n" ++ getHealthRecommendations score)
    if env.saveAssessmentOk then
      ({s with assessment := none, lastAssessment := some env.nowIso},
       [scoreReply,
        .saveHealthAssessment score a.data (getHealthRecommendations score),
        .reply AVAILABLE_SERVICES])
    else
      (s, [scoreReply, .reply "⚠️ Error saving your assessment. Please try again later."])

/-- The accepted-input path of `handleAssessmentResponse`: store the new
data, advance to `step`, and ask that step's question. -/
def assessAdvance (s : Session) (step : AssessStep) (data : AssessData) : Session × List Act :=
  ({s with assessment := some ⟨step, data⟩}, [.reply (assessmentPrompt step)])

/-- `handleAssessmentResponse` (lines 325-461).  Each numeric step only
tests `isNaN(parseInt(response))`; on the last step `askAssessmentQuestion`
sees 'complete' and runs `completeHealthAssessment` in the same call.  The
switch's default (a falsy or exhausted assessment) replies and cleans the
session up. -/
def handleAssessmentResponse (env : Env) (s : Session) (response : String) :
    Session × List Act :=
  match s.assessment with
  | none =>
    ({}, [.reply "Assessment completed. Type /help for options.", .clearReminder])
  | some a =>
    let data := a.data
    match a.step with
    | .sleep =>
      match jsParseInt response with
      | none => (s, [.reply "Please enter a number between 4-12"])
      | some n => assessAdvance s .water {data with sleepHours := some n}
    | .water =>
      match jsParseInt response with
      | none => (s, [.reply "Please enter a number between 1-20"])
      | some n => assessAdvance s .exercise {data with waterIntake := some n}
    | .exercise =>
      match jsParseInt response with
      | none => (s, [.reply "Please enter a number between 0-7"])
      | some n => assessAdvance s .stress {data with exerciseDays := some n}
    | .stress =>
      match jsParseInt response with
      | none => (s, [.reply "Please enter a number between 1-10"])
      | some n => assessAdvance s .diet {data with stressLevel := some n}
    | .diet =>
      match jsParseInt response with
      | none => (s, [.reply "Please enter a number between 1-10"])
      | some n => assessAdvance s .smoking {data with dietQuality := some n}
    | .smoking =>
      let smokes := jsToLower response
      if smokes = "yes" ∨ smokes = "no" then
        assessAdvance s .alcohol {data with smokes := some smokes}
      else
        (s, [.reply "Please answer with \"yes\" or \"no\""])
    | .alcohol =>
      match jsParseInt response with
      | none => (s, [.reply "Please enter a number between 0-50"])
      | some n =>
        completeHealthAssessment env
          {s with assessment := some ⟨.complete, {data with alcoholDrinks := some n}⟩}
    | .complete =>
      ({}, [.reply "Assessment completed. Type /help for options.", .clearReminder])

/-- `completeOnboarding` (lines 230-251).  On a successful save the BMI
and assessment-choice replies go out and the completion flags are set; when
`db.saveUserProfile` throws, the catch replies and no flag is set.
`calculateBMI` is applied to the collected height and weight (always
present on the reachable path; the defaults below are never read). -/
def completeOnboarding (env : Env) (s : Session) (profileData : OnbData) :
    Session × List Act :=
  if env.saveProfileOk then
    let bmi := calculateBMI (profileData.height.getD ⟨0, 0⟩) (profileData.weight.getD ⟨0, 0⟩)
    ({s with onboardingComplete := true, awaitingAssessmentChoice := true},
     [.saveUserProfile profileData,
      .reply ("🎉 Profile complete! Your BMI: " ++ bmi),
      .reply "Would you like to do your health assessment now? This will help me give better recommendations.\n\n1. Yes, do it now\n2. Remind me later\n3. No, show me services"])
  else
    (s, [.reply "❌ Error saving your profile. Please try /start again."])

/-- The onboarding switch of `handleMessage` (lines 532-585). -/
def onboardingHandle (env : Env) (s : Session) (step : OnbStep) (data : OnbData)
    (body : String) : Session × List Act :=
  match step with
  | .name =>
    ({s with onboarding := some ⟨.age, {data with name := some body}⟩},
     [.reply "How old are you?"])
  | .age =>
    if !reAllDigits body || jsLtI (jsParseInt body) 0 || jsGtI (jsParseInt body) 150 then
      (s, [.reply "Please enter a valid age (0-150)."])
    else
      ({s with onboarding := some ⟨.sex, {data with age := some ((jsParseInt body).getD 0)}⟩},
       [.reply "What's your sex? (male/female/other)"])
  | .sex =>
    if jsToLower body = "male" ∨ jsToLower body = "female" ∨ jsToLower body = "other" then
      ({s with onboarding := some ⟨.height, {data with sex := some (jsToLower body)}⟩},
       [.reply "What's your height in cm?"])
    else
      (s, [.reply "Please enter 'male', 'female', or 'other'."])
  | .height =>
    if !reDecimal body || jsLtQ (jsParseFloat body) 50 || jsGtQ (jsParseFloat body) 300 then
      (s, [.reply "Please enter a valid height in cm (50-300)."])
    else
      ({s with onboarding := some ⟨.weight, {data with height := some ((jsParseFloat body).getD ⟨0, 0⟩)}⟩},
       [.reply "What's your weight in kg?"])
  | .weight =>
    if !reDecimal body || jsLtQ (jsParseFloat body) 20 || jsGtQ (jsParseFloat body) 300 then
      (s, [.reply "Please enter a valid weight in kg (20-300)."])
    else
      ({s with onboarding := some ⟨.medical_history, {data with weight := some ((jsParseFloat body).getD ⟨0, 0⟩)}⟩},
       [.reply "Any medical history or conditions? (Enter 'none' if none)"])
  | .medical_history =>
    let r := completeOnboarding env s {data with medical_history := some body}
    ({r.1 with onboarding := none}, r.2)

namespace Cohere

/-- `generateDiagnosisResponse` (src/cohere.js lines 89-120).
`generateAliyaResponse` catches its own errors and always returns a string
(`env.aiDiagnosis`); the function saves the diagnosis and returns it.  When
its internal `saveDiagnosis` (or a profile lookup) throws, the catch
returns the static fallback text instead and nothing is saved. -/
def generateDiagnosisResponse (env : Env) (symptoms : String) : String × List Act :=
  if env.cohereSaveOk then
    let diagnosis := env.aiDiagnosis symptoms
    (diagnosis, [.saveDiagnosis symptoms diagnosis])
  else
    ("I'm unable to analyze symptoms right now. For " ++ symptoms ++
       ", watch for:\n\n" ++ "- Fever above 38°C\n- Difficulty breathing\n- Severe pain\n\n" ++
       "When in doubt, consult a doctor.",
     [])

end Cohere

/-- The command switch of `handleMessage` (lines 588-676). -/
def commandHandle (env : Env) (s : Session) (body : String) : Session × List Act :=
  let parts := jsSplitSpace body
  let command := jsToLower (parts.headD "")
  let args := parts.tail
  if command = "/start" then
    match env.user with
    | some u => (s, [.reply ("Welcome back " ++ u.name ++ "! " ++ AVAILABLE_SERVICES)])
    | none => handleNewUserGreeting s
  else if command = "/diagnose" then
    if args.isEmpty then
      (s, [.reply "Please describe symptoms after /diagnose"])
    else
      let symptoms := String.intercalate " " args
      let g := Cohere.generateDiagnosisResponse env symptoms
      if env.saveDiagnosisOk then
        (s, g.2 ++ [.reply g.1, .saveDiagnosis symptoms g.1])
      else
        (s, g.2 ++ [.reply g.1,
          .reply "I couldn't analyze symptoms. Please consult a doctor if concerned."])
  else if command = "/fit" then
    ({s with fitness := some ⟨.goals, {}⟩},
     [.reply "Starting your fitness program! What are your fitness goals?\n1. Weight loss\n2. Muscle gain\n3. Endurance\n4. General fitness"])
  else if command = "/meals" then
    ({s with meals := some ⟨.preferences, {}⟩},
     [.reply "Creating meal plans! What are your dietary preferences?\n1. Vegetarian\n2. Vegan\n3. Low-carb\n4. Keto\n5. Balanced"])
  else if command = "/cycle" then
    if env.user.map Profile.sex ≠ some "female" then
      (s, [.reply "Cycle tracking is available only for female users."])
    else
      ({s with cycle := some ⟨.last_period, {}⟩},
       [.reply "When was the first day of your last menstrual period? (YYYY-MM-DD)"])
  else if command = "/data" then
    match env.aiAnalysis with
    | some analysis => (s, [.reply analysis])
    | none => (s, [.reply "No health data found. Complete an assessment first!"])
  else if command = "/periodtips" then
    match env.aiPeriodTips with
    | some tips => (s, [.reply tips])
    | none => (s, [.reply "This feature is for female users. Need other health tips?"])
  else if command = "/help" then
    (s, [.reply AVAILABLE_SERVICES])
  else
    (s, [.reply ("Unknown command. " ++ AVAILABLE_SERVICES)])

/-- The fitness switch of `handleMessage` (lines 679-714).  On the final
step the plan reply goes out before `db.saveFitnessPlan`; when the save
throws, the catch sends the plan again with a "couldn't save" note, and the
flow is cleared on both paths. -/
def fitnessHandle (env : Env) (s : Session) (step : FitStep) (data : FitData)
    (body : String) : Session × List Act :=
  match step with
  | .goals =>
    ({s with fitness := some ⟨.frequency, {data with goals := some body}⟩},
     [.reply "How many days can you workout weekly? (1-7)"])
  | .frequency =>
    if !reDigit1to7 body then
      (s, [.reply "Please enter a number between 1-7"])
    else
      ({s with fitness := some ⟨.equipment, {data with frequency := some body}⟩},
       [.reply "What equipment do you have?\n1. None\n2. Dumbbells\n3. Resistance bands\n4. Full gym"])
  | .equipment =>
    let d := {data with equipment := some body}
    match generateFitnessPlan d with
    | none =>
      -- goals is undefined: generateFitnessPlan throws inside the try and
      -- again inside the catch; the outer handler of handleMessage replies
      (s, [.reply "Sorry, I encountered an error. Please try again."])
    | some plan =>
      if env.saveFitnessOk then
        ({s with fitness := none},
         [.reply ("Your fitness plan:\n" ++ plan), .saveFitnessPlan d])
      else
        ({s with fitness := none},
         [.reply ("Your fitness plan:\n" ++ plan),
          .reply ("Here's your plan:\n" ++ plan ++ "\n\nCouldn't save to profile.")])

/-- The meals switch of `handleMessage` (lines 717-752), with the same
best-effort completion as the fitness flow. -/
def mealsHandle (env : Env) (s : Session) (step : MealStep) (data : MealData)
    (body : String) : Session × List Act :=
  match step with
  | .preferences =>
    ({s with meals := some ⟨.allergies, {data with preferences := some body}⟩},
     [.reply "Any food allergies? (comma separated or 'none')"])
  | .allergies =>
    ({s with meals := some ⟨.frequency, {data with allergies := some body}⟩},
     [.reply "How many meals per day? (3-6)"])
  | .frequency =>
    if !reDigit3to6 body then
      (s, [.reply "Please enter a number between 3-6"])
    else
      let d := {data with frequency := some body}
      match generateMealPlan d with
      | none =>
        (s, [.reply "Sorry, I encountered an error. Please try again."])
      | some mealPlan =>
        if env.saveMealOk then
          ({s with meals := none},
           [.reply ("Your meal plan:\n" ++ mealPlan), .saveMealPlan d])
        else
          ({s with meals := none},
           [.reply ("Your meal plan:\n" ++ mealPlan),
            .reply ("Here's your plan:\n" ++ mealPlan ++ "\n\nCouldn't save to profile.")])

/-- The cycle switch of `handleMessage` (lines 755-782).  The final step
sends the predictions, then saves; a throwing `db.saveCycleData` reaches
the outer catch, so the flow is NOT cleared on that path. -/
def cycleHandle (env : Env) (s : Session) (step : CycleStep) (data : CycleData)
    (body : String) : Session × List Act :=
  match step with
  | .last_period =>
    if !reIsoDate body then
      (s, [.reply "Please use YYYY-MM-DD format"])
    else
      ({s with cycle := some ⟨.length, {data with lastPeriod := some body}⟩},
       [.reply "Typical cycle length in days? (21-35)"])
  | .length =>
    if !reCycleLen body then
      (s, [.reply "Please enter a number between 21-35"])
    else
      let d := {data with cycleLength := some body}
      let predictions := generateCyclePredictions d
      if env.saveCycleOk then
        ({s with cycle := none},
         [.reply ("Your cycle predictions:\n" ++ predictions), .saveCycleData d])
      else
        (s, [.reply ("Your cycle predictions:\n" ++ predictions),
             .reply "Sorry, I encountered an error. Please try again."])

/-! ## The router (src/index.js lines 497-798) -/

/-- The branches of `handleMessage`'s routing chain, in source order. -/
inductive Branch
  | empty
  | greeting
  | assessment
  | consent
  | assessmentChoice
  | onboarding
  | command
  | fitness
  | meals
  | cycle
  | healthQuestion
  | fallback
deriving DecidableEq, Repr

/-- Which branch of `handleMessage` handles the (already trimmed) body:
its `if`/`return` chain, condition for condition in source order (lines
502-792).  The new-user condition (line 512) tests only
`!user && !state?.onboarding && !state?.awaitingConsent &&
!body.startsWith('/')`. -/
def routedBranch (user : Option Profile) (s : Session) (body : String) : Branch :=
  if body = "" then .empty
  else if user = none ∧ s.onboarding = none ∧ s.awaitingConsent = false ∧
      jsStartsWith body "/" = false then .greeting
  else if s.assessment.isSome then .assessment
  else if s.awaitingConsent then .consent
  else if s.awaitingAssessmentChoice then .assessmentChoice
  else if s.onboarding.isSome then .onboarding
  else if jsStartsWith body "/" then .command
  else if s.fitness.isSome then .fitness
  else if s.meals.isSome then .meals
  else if s.cycle.isSome then .cycle
  else if body.length > 10 ∧ healthKeywordTest body then .healthQuestion
  else .fallback

/-- `handleMessage` (lines 497-798): trim the body, route it down the
`if` chain, and run the selected branch's handler. -/
def handleMessage (env : Env) (s : Session) (msgBody : String) : Session × List Act :=
  let body := jsTrim msgBody
  match routedBranch env.user s body with
  | .empty => (s, [.reply "Please send a valid message."])
  | .greeting => handleNewUserGreeting s
  | .assessment => handleAssessmentResponse env s body
  | .consent => handleConsentResponse s body
  | .assessmentChoice => handleAssessmentChoice s body
  | .onboarding =>
    match s.onboarding with
    | some f => onboardingHandle env s f.step f.data body
    | none => (s, [])
  | .command => commandHandle env s body
  | .fitness =>
    match s.fitness with
    | some f => fitnessHandle env s f.step f.data body
    | none => (s, [])
  | .meals =>
    match s.meals with
    | some f => mealsHandle env s f.step f.data body
    | none => (s, [])
  | .cycle =>
    match s.cycle with
    | some f => cycleHandle env s f.step f.data body
    | none => (s, [])
  | .healthQuestion => (s, [.reply (env.aiAnswer body)])
  | .fallback =>
    (s, [.reply ("How can I help with your health today? " ++ AVAILABLE_SERVICES)])

/-- One session's fate in the hourly sweep (src/index.js lines 831-838):
`true` when the session is kept.  `state.lastActivity && ...`
short-circuits, so a session whose `lastActivity` was never set (or is 0)
is always kept. -/
def reaperKeeps (now : Int) (s : Session) : Bool :=
  match s.lastActivity with
  | none => true
  | some t => !(decide (t ≠ 0) && decide (24 * 60 * 60 * 1000 < now - t))

/-! ## Sanity checks of the embedded primitives -/

example : jsSplitSpace "/diagnose high fever" = ["/diagnose", "high", "fever"] := by decide
example : jsSplitSpace "/fit" = ["/fit"] := by decide
example : jsNewDate "2024-01-01" = 19723 := by decide
example : jsToDateString 19723 = "Mon Jan 01 2024" := by decide
example : civilFromDays (jsSetDate (jsNewDate "2024-01-31") (31 + 3)) = (2024, 2, 3) := by decide
example : jsTrim "  /fit " = "/fit" := by decide
example : jsParseInt "200" = some 200 := by decide
example : jsParseInt "12abc" = some 12 := by decide
example : jsParseInt "abc" = none := by decide
example : jsParseFloat "165.5" = some ⟨1655, 1⟩ := by decide
example : jsGtQ (jsParseFloat "300.5") 300 = true := by decide
example : reDigit1to7 "7" = true ∧ reDigit1to7 "8" = false ∧ reDigit1to7 "07" = false := by decide
example : reCycleLen "28" = true ∧ reCycleLen "36" = false ∧ reCycleLen "20" = false := by decide
example : reIsoDate "2024-01-01" = true ∧ reIsoDate "2024-1-1" = false := by decide
example : healthKeywordTest "I have Health problems" = true := by decide
example : calculateBMI ⟨165, 0⟩ ⟨60, 0⟩ = "22.0" := by decide
example : calculateBMI ⟨1655, 1⟩ ⟨605, 1⟩ = "22.1" := by decide

set_option maxRecDepth 16000

set_option maxHeartbeats 1000000

/-! ## C4: the health score -/

/-- C4: `calculateHealthScore` is pure in the 7 assessment fields and equals
100 minus the fixed deduction for each failed criterion (10 for sleep < 7,
5 for water < 8, 15 for exercise < 3, 10 for stress > 7, 10 for diet
quality < 5, 20 for smoking "yes", 5 for alcohol > 7), clamped below at 0,
so it always lies in [0, 100]; on sleep=5, water=10, exercise=1, stress=9,
diet=3, smoking="yes", alcohol=10 it returns 30, whose recommendation text
is the "consider lifestyle changes" tier (score < 60). -/
theorem C4_health_score :
    (∀ (sl w e st di : Int) (sm : String) (al : Int),
      calculateHealthScore ⟨some sl, some w, some e, some st, some di, some sm, some al⟩ =
        max 0 (100 - (if sl < 7 then 10 else 0) - (if w < 8 then 5 else 0) -
          (if e < 3 then 15 else 0) - (if 7 < st then 10 else 0) -
          (if di < 5 then 10 else 0) - (if sm = "yes" then 20 else 0) -
          (if 7 < al then 5 else 0))) ∧
    (∀ d : AssessData, 0 ≤ calculateHealthScore d ∧ calculateHealthScore d ≤ 100) ∧
    calculateHealthScore ⟨some 5, some 10, some 1, some 9, some 3, some "yes", some 10⟩ = 30 ∧
    getHealthRecommendations
        (calculateHealthScore ⟨some 5, some 10, some 1, some 9, some 3, some "yes", some 10⟩) =
      "Consider lifestyle changes. Focus on sleep, diet and exercise." := by
  refine ⟨?_, ?_, by decide, by decide⟩
  · intro sl w e st di sm al
    simp only [calculateHealthScore, jsLtI, jsGtI, decide_eq_true_eq, Option.some.injEq]
    split_ifs <;> rfl
  · intro d
    unfold calculateHealthScore
    split_ifs <;> decide

/-! ## C6: the cycle predictions on the reference input -/

/-- C6: for lastPeriod "2024-01-01" and cycleLength "28", the next period
is 2024-01-29 (last period + 28 days), the ovulation day is 2024-01-15
(last period + (28 − 14) days), and the fertile window is
[2024-01-10, 2024-01-16] = [ovulation − 5 days, ovulation + 1 day],
as rendered by `generateCyclePredictions`. -/
theorem C6_cycle_predictions :
    jsParseInt "28" = some 28 ∧
    civilFromDays (nextPeriodDate (jsNewDate "2024-01-01") 28) = (2024, 1, 29) ∧
    civilFromDays (ovulationDate (jsNewDate "2024-01-01") 28) = (2024, 1, 15) ∧
    civilFromDays (calculateFertileWindowDates (jsNewDate "2024-01-01") 28).1 = (2024, 1, 10) ∧
    civilFromDays (calculateFertileWindowDates (jsNewDate "2024-01-01") 28).2 = (2024, 1, 16) ∧
    generateCyclePredictions ⟨some "2024-01-01", some "28"⟩ =
      "📅 *Cycle Predictions*\nNext period: Mon Jan 29 2024\nFertile window: Wed Jan 10 2024 to Tue Jan 16 2024\n" := by
  decide

/-! ## C7: the two fertile-window functions -/

/-- C7 counterexample: on lastPeriod 2024-01-01 with cycle length 28, the
database-side window equals the router-side window, and its end bound is
ovulation + 1 day (2024-01-16), not ovulation + 6 days (2024-01-21) — the
two call sites do not compute different windows. -/
theorem C7_counterexample :
    Db.calculateFertileWindowDates (jsNewDate "2024-01-01") 28 =
      calculateFertileWindowDates (jsNewDate "2024-01-01") 28 ∧
    (Db.calculateFertileWindowDates (jsNewDate "2024-01-01") 28).2 =
      ovulationDate (jsNewDate "2024-01-01") 28 + 1 ∧
    ¬(Db.calculateFertileWindowDates (jsNewDate "2024-01-01") 28).2 =
        ovulationDate (jsNewDate "2024-01-01") 28 + 6 := by
  decide

/-- C7 (amended): the router-side and database-side fertile-window
functions agree on every input: both windows run from ovulation − 5 days to
ovulation + 1 day.  The database side's literal `+ 6` offset is applied to
`ovulationDate` after its own `setDate` calls have already mutated it to
ovulation − 5, so its end bound is also ovulation + 1. -/
theorem C7_fertile_windows_agree (lastPeriod : JsDate) (cycleLength : Int) :
    calculateFertileWindowDates lastPeriod cycleLength =
      Db.calculateFertileWindowDates lastPeriod cycleLength ∧
    (calculateFertileWindowDates lastPeriod cycleLength).1 =
      ovulationDate lastPeriod cycleLength - 5 ∧
    (calculateFertileWindowDates lastPeriod cycleLength).2 =
      ovulationDate lastPeriod cycleLength + 1 := by
  have key : ∀ t k : Int, jsSetDate t (jsGetDate t + k) = t + k := by
    intro t k
    unfold jsSetDate
    ring
  have key2 : ∀ t k : Int, jsSetDate t (jsGetDate t - k) = t - k := by
    intro t k
    unfold jsSetDate
    ring
  have key3 : ∀ t k j : Int, jsSetDate t (jsGetDate t + k - j) = t + k - j := by
    intro t k j
    unfold jsSetDate
    ring
  simp only [calculateFertileWindowDates, Db.calculateFertileWindowDates, ovulationDate,
    key, key2, key3, Prod.mk.injEq]
  refine ⟨⟨by ring_nf, by ring_nf⟩, by ring_nf, by ring_nf⟩

/-! ## C1: the routing chain -/

/-- When the routing chain selects the command branch, `handleMessage` runs
the command switch on the trimmed body. -/
theorem handleMessage_command (env : Env) (s : Session) (msgBody : String)
    (h : routedBranch env.user s (jsTrim msgBody) = .command) :
    handleMessage env s msgBody = commandHandle env s (jsTrim msgBody) := by
  simp only [handleMessage]
  rw [h]

/-- C1 counterexample: a session with an active Fitness flow, an unknown
user and the non-command message "hello" is routed to the unknown-user
greeting branch (which enters AwaitingConsent) even though a flow is
active — the greeting branch does not require "no active flow", only no
Onboarding and no AwaitingConsent. -/
theorem C1_counterexample :
    (({fitness := some ⟨.frequency, {goals := some "weight loss"}⟩} : Session).fitness ≠ none) ∧
    routedBranch none {fitness := some ⟨.frequency, {goals := some "weight loss"}⟩} "hello" =
      .greeting ∧
    handleMessage {} {fitness := some ⟨.frequency, {goals := some "weight loss"}⟩} "hello" =
      ({fitness := some ⟨.frequency, {goals := some "weight loss"}⟩, awaitingConsent := true},
       [.reply "👋 Hello! I'm Aliya, your AI health assistant.", .reply TERMS_AND_CONDITIONS]) := by
  refine ⟨by decide, by decide, by decide⟩

/-- C1 (amended): the routing chain is evaluated in the fixed source order
and, being a total function, selects exactly one branch per message; the
unknown-user greeting branch fires exactly when the trimmed body is
non-empty, no profile is stored, the session has no active Onboarding and
is not awaiting consent, and the body does not start with '/'.  An active
Assessment, Fitness, Meals or Cycle flow or a pending assessment choice
does not prevent it.  When it fires, the greeting runs. -/
theorem C1_greeting_branch_condition :
    (∀ (user : Option Profile) (s : Session) (body : String),
      routedBranch user s body = .greeting ↔
        body ≠ "" ∧ user = none ∧ s.onboarding = none ∧ s.awaitingConsent = false ∧
          jsStartsWith body "/" = false) ∧
    (∀ (env : Env) (s : Session) (msgBody : String),
      routedBranch env.user s (jsTrim msgBody) = .greeting →
        handleMessage env s msgBody = handleNewUserGreeting s) := by
  constructor
  · intro user s body
    unfold routedBranch
    split_ifs with h1 h2 <;> simp_all
  · intro env s msgBody h
    simp only [handleMessage]
    rw [h]

/-! ## C2: entering a new flow merges, it does not discard -/

/-- C2 counterexample: issuing "/fit" while mid-Meals (profile present,
preferences and allergies already collected) leaves all the accumulated
Meals data in the session next to the new Fitness flow — `setState` merges
patch objects, so entering Fitness does not discard the Meals state. -/
theorem C2_counterexample :
    (handleMessage
        {user := some ⟨"Eve", 30, "female", ⟨165, 0⟩, ⟨60, 0⟩, "none"⟩}
        {meals := some ⟨.frequency, {preferences := some "vegan", allergies := some "none"}⟩}
        "/fit").1 =
      {meals := some ⟨.frequency, {preferences := some "vegan", allergies := some "none"}⟩,
       fitness := some ⟨.goals, {}⟩} := by
  decide

/-- C2 (amended): whenever "/fit" reaches the command switch (no active
Assessment, consent wait, choice wait or Onboarding), the router sets the
Fitness flow to its first step and changes nothing else: every other
session key — any mid-flight Meals or Cycle flow and its accumulated data
included — survives in the session, merely shadowed while the Fitness key
is checked first. -/
theorem C2_entering_fitness_preserves_other_flows (env : Env) (s : Session)
    (h1 : s.assessment = none) (h2 : s.awaitingConsent = false)
    (h3 : s.awaitingAssessmentChoice = false) (h4 : s.onboarding = none) :
    handleMessage env s "/fit" =
      ({s with fitness := some ⟨.goals, {}⟩},
       [.reply "Starting your fitness program! What are your fitness goals?\n1. Weight loss\n2. Muscle gain\n3. Endurance\n4. General fitness"]) := by
  have hb : jsTrim "/fit" = "/fit" := by decide
  have hr : routedBranch env.user s (jsTrim "/fit") = .command := by
    rw [hb]
    unfold routedBranch
    rw [if_neg (by decide), if_neg (fun h => absurd h.2.2.2 (by decide)),
      if_neg (by simp [h1]), if_neg (by simp [h2]), if_neg (by simp [h3]),
      if_neg (by simp [h4]), if_pos (by decide)]
  rw [handleMessage_command env s "/fit" hr, hb]
  rfl

/-- C2 witness: the amended statement applied to the mid-Meals session of
the counterexample. -/
theorem C2_witness :
    handleMessage
        {user := some ⟨"Eve", 30, "female", ⟨165, 0⟩, ⟨60, 0⟩, "none"⟩}
        {meals := some ⟨.frequency, {preferences := some "vegan", allergies := some "none"}⟩}
        "/fit" =
      ({meals := some ⟨.frequency, {preferences := some "vegan", allergies := some "none"}⟩,
        fitness := some ⟨.goals, {}⟩},
       [.reply "Starting your fitness program! What are your fitness goals?\n1. Weight loss\n2. Muscle gain\n3. Endurance\n4. General fitness"]) :=
  C2_entering_fitness_preserves_other_flows _ _ rfl rfl rfl rfl

/-! ## C3: a rejected input leaves the session untouched -/

/-- C3: at every validating flow step, an input the step's validator
rejects makes the handler emit exactly the correction prompt: the session
is returned unchanged (same flow, same step, same data) and no persistence
action is emitted.  In particular (last conjunct) Onboarding at step `age`
with body "200" re-asks and persists nothing. -/
theorem C3_reject_leaves_session_unchanged :
    (∀ (env : Env) (s : Session) (d : OnbData) (body : String),
      (!reAllDigits body || jsLtI (jsParseInt body) 0 || jsGtI (jsParseInt body) 150) = true →
      onboardingHandle env s .age d body = (s, [.reply "Please enter a valid age (0-150)."])) ∧
    (∀ (env : Env) (s : Session) (d : OnbData) (body : String),
      ¬(jsToLower body = "male" ∨ jsToLower body = "female" ∨ jsToLower body = "other") →
      onboardingHandle env s .sex d body =
        (s, [.reply "Please enter 'male', 'female', or 'other'."])) ∧
    (∀ (env : Env) (s : Session) (d : OnbData) (body : String),
      (!reDecimal body || jsLtQ (jsParseFloat body) 50 || jsGtQ (jsParseFloat body) 300) = true →
      onboardingHandle env s .height d body =
        (s, [.reply "Please enter a valid height in cm (50-300)."])) ∧
    (∀ (env : Env) (s : Session) (d : OnbData) (body : String),
      (!reDecimal body || jsLtQ (jsParseFloat body) 20 || jsGtQ (jsParseFloat body) 300) = true →
      onboardingHandle env s .weight d body =
        (s, [.reply "Please enter a valid weight in kg (20-300)."])) ∧
    (∀ (env : Env) (s : Session) (d : AssessData) (body : String), jsParseInt body = none →
      handleAssessmentResponse env {s with assessment := some ⟨.sleep, d⟩} body =
        ({s with assessment := some ⟨.sleep, d⟩},
         [.reply "Please enter a number between 4-12"])) ∧
    (∀ (env : Env) (s : Session) (d : AssessData) (body : String), jsParseInt body = none →
      handleAssessmentResponse env {s with assessment := some ⟨.water, d⟩} body =
        ({s with assessment := some ⟨.water, d⟩},
         [.reply "Please enter a number between 1-20"])) ∧
    (∀ (env : Env) (s : Session) (d : AssessData) (body : String), jsParseInt body = none →
      handleAssessmentResponse env {s with assessment := some ⟨.exercise, d⟩} body =
        ({s with assessment := some ⟨.exercise, d⟩},
         [.reply "Please enter a number between 0-7"])) ∧
    (∀ (env : Env) (s : Session) (d : AssessData) (body : String), jsParseInt body = none →
      handleAssessmentResponse env {s with assessment := some ⟨.stress, d⟩} body =
        ({s with assessment := some ⟨.stress, d⟩},
         [.reply "Please enter a number between 1-10"])) ∧
    (∀ (env : Env) (s : Session) (d : AssessData) (body : String), jsParseInt body = none →
      handleAssessmentResponse env {s with assessment := some ⟨.diet, d⟩} body =
        ({s with assessment := some ⟨.diet, d⟩},
         [.reply "Please enter a number between 1-10"])) ∧
    (∀ (env : Env) (s : Session) (d : AssessData) (body : String),
      ¬(jsToLower body = "yes" ∨ jsToLower body = "no") →
      handleAssessmentResponse env {s with assessment := some ⟨.smoking, d⟩} body =
        ({s with assessment := some ⟨.smoking, d⟩},
         [.reply "Please answer with \"yes\" or \"no\""])) ∧
    (∀ (env : Env) (s : Session) (d : AssessData) (body : String), jsParseInt body = none →
      handleAssessmentResponse env {s with assessment := some ⟨.alcohol, d⟩} body =
        ({s with assessment := some ⟨.alcohol, d⟩},
         [.reply "Please enter a number between 0-50"])) ∧
    (∀ (env : Env) (s : Session) (d : FitData) (body : String), reDigit1to7 body = false →
      fitnessHandle env s .frequency d body =
        (s, [.reply "Please enter a number between 1-7"])) ∧
    (∀ (env : Env) (s : Session) (d : MealData) (body : String), reDigit3to6 body = false →
      mealsHandle env s .frequency d body =
        (s, [.reply "Please enter a number between 3-6"])) ∧
    (∀ (env : Env) (s : Session) (d : CycleData) (body : String), reIsoDate body = false →
      cycleHandle env s .last_period d body =
        (s, [.reply "Please use YYYY-MM-DD format"])) ∧
    (∀ (env : Env) (s : Session) (d : CycleData) (body : String), reCycleLen body = false →
      cycleHandle env s .length d body =
        (s, [.reply "Please enter a number between 21-35"])) ∧
    handleMessage {user := some ⟨"Eve", 30, "female", ⟨165, 0⟩, ⟨60, 0⟩, "none"⟩}
        {onboarding := some ⟨.age, {name := some "Ada"}⟩} "200" =
      ({onboarding := some ⟨.age, {name := some "Ada"}⟩},
       [.reply "Please enter a valid age (0-150)."]) := by
  refine ⟨?_, ?_, ?_, ?_, ?_, ?_, ?_, ?_, ?_, ?_, ?_, ?_, ?_, ?_, ?_, by decide⟩ <;>
    intro env s d body h
  · simp [onboardingHandle, h]
  · simp [onboardingHandle, h]
  · simp [onboardingHandle, h]
  · simp [onboardingHandle, h]
  · simp [handleAssessmentResponse, h]
  · simp [handleAssessmentResponse, h]
  · simp [handleAssessmentResponse, h]
  · simp [handleAssessmentResponse, h]
  · simp [handleAssessmentResponse, h]
  · simp [handleAssessmentResponse, h]
  · simp [handleAssessmentResponse, h]
  · simp [fitnessHandle, h]
  · simp [mealsHandle, h]
  · simp [cycleHandle, h]
  · simp [cycleHandle, h]

/-- C3 witness: the age conjunct applied at body "200" (the parse gives
200 > 150) and the sleep conjunct at the non-numeric body "abc". -/
theorem C3_witness :
    onboardingHandle {} {} .age {} "200" = ({}, [.reply "Please enter a valid age (0-150)."]) ∧
    handleAssessmentResponse {} {assessment := some ⟨.sleep, {}⟩} "abc" =
      ({assessment := some ⟨.sleep, {}⟩}, [.reply "Please enter a number between 4-12"]) :=
  ⟨C3_reject_leaves_session_unchanged.1 {} {} {} "200" (by decide),
   (C3_reject_leaves_session_unchanged.2.2.2.2.1 {} {} {} "abc" (by decide) : _)⟩

/-! ## C5: the range-enforcement asymmetry -/

/-- A body accepted by `/^[1-7]$/` parses to an integer between 1 and 7,
so any parsed value outside that range is rejected by the regex. -/
theorem reDigit1to7_bounds (body : String) (n : Int) (hp : jsParseInt body = some n)
    (hr : reDigit1to7 body = true) : 1 ≤ n ∧ n ≤ 7 := by
  unfold reDigit1to7 at hr
  rcases hl : body.toList with _ | ⟨c, _ | ⟨c2, tl2⟩⟩ <;> rw [hl] at hr <;> simp at hr
  obtain ⟨h1, h2⟩ := hr
  have hd : c ≠ '-' := by intro he; subst he; exact absurd h1 (by decide)
  have hd2 : c ≠ '+' := by intro he; subst he; exact absurd h1 (by decide)
  have hsp : isJsSpace c = false := by simp [isJsSpace]; omega
  have hdig : jsIsDigit c = true := by simp [jsIsDigit]; omega
  unfold jsParseInt at hp
  rw [hl] at hp
  simp [List.dropWhile, hsp, hd, hd2, List.takeWhile, hdig, digitsVal, digitVal] at hp
  omega

/-- A body accepted by `/^[3-6]$/` parses to an integer between 3 and 6. -/
theorem reDigit3to6_bounds (body : String) (n : Int) (hp : jsParseInt body = some n)
    (hr : reDigit3to6 body = true) : 3 ≤ n ∧ n ≤ 6 := by
  unfold reDigit3to6 at hr
  rcases hl : body.toList with _ | ⟨c, _ | ⟨c2, tl2⟩⟩ <;> rw [hl] at hr <;> simp at hr
  obtain ⟨h1, h2⟩ := hr
  have hd : c ≠ '-' := by intro he; subst he; exact absurd h1 (by decide)
  have hd2 : c ≠ '+' := by intro he; subst he; exact absurd h1 (by decide)
  have hsp : isJsSpace c = false := by simp [isJsSpace]; omega
  have hdig : jsIsDigit c = true := by simp [jsIsDigit]; omega
  unfold jsParseInt at hp
  rw [hl] at hp
  simp [List.dropWhile, hsp, hd, hd2, List.takeWhile, hdig, digitsVal, digitVal] at hp
  omega

/-- C5: every numeric Assessment step accepts ANY input that parses to an
integer and advances with that value stored — the advertised ranges are not
enforced (e.g. sleep accepts 100) — while the Onboarding age validator
rejects every parsed value over 150, the Onboarding height validator
rejects every parsed value over 300, and the Fitness and Meals frequency
validators reject every parsed value outside 1–7 and 3–6 respectively. -/
theorem C5_assessment_range_asymmetry :
    (∀ (env : Env) (s : Session) (d : AssessData) (body : String) (n : Int),
      jsParseInt body = some n →
      handleAssessmentResponse env {s with assessment := some ⟨.sleep, d⟩} body =
        ({s with assessment := some ⟨.water, {d with sleepHours := some n}⟩},
         [.reply (assessmentPrompt .water)])) ∧
    (∀ (env : Env) (s : Session) (d : AssessData) (body : String) (n : Int),
      jsParseInt body = some n →
      handleAssessmentResponse env {s with assessment := some ⟨.water, d⟩} body =
        ({s with assessment := some ⟨.exercise, {d with waterIntake := some n}⟩},
         [.reply (assessmentPrompt .exercise)])) ∧
    (∀ (env : Env) (s : Session) (d : AssessData) (body : String) (n : Int),
      jsParseInt body = some n →
      handleAssessmentResponse env {s with assessment := some ⟨.exercise, d⟩} body =
        ({s with assessment := some ⟨.stress, {d with exerciseDays := some n}⟩},
         [.reply (assessmentPrompt .stress)])) ∧
    (∀ (env : Env) (s : Session) (d : AssessData) (body : String) (n : Int),
      jsParseInt body = some n →
      handleAssessmentResponse env {s with assessment := some ⟨.stress, d⟩} body =
        ({s with assessment := some ⟨.diet, {d with stressLevel := some n}⟩},
         [.reply (assessmentPrompt .diet)])) ∧
    (∀ (env : Env) (s : Session) (d : AssessData) (body : String) (n : Int),
      jsParseInt body = some n →
      handleAssessmentResponse env {s with assessment := some ⟨.diet, d⟩} body =
        ({s with assessment := some ⟨.smoking, {d with dietQuality := some n}⟩},
         [.reply (assessmentPrompt .smoking)])) ∧
    (∀ (env : Env) (s : Session) (d : AssessData) (body : String) (n : Int),
      jsParseInt body = some n →
      handleAssessmentResponse env {s with assessment := some ⟨.alcohol, d⟩} body =
        completeHealthAssessment env
          {s with assessment := some ⟨.complete, {d with alcoholDrinks := some n}⟩}) ∧
    (handleAssessmentResponse {} {assessment := some ⟨.sleep, {}⟩} "100").1.assessment =
      some ⟨.water, {sleepHours := some 100}⟩ ∧
    (∀ (env : Env) (s : Session) (d : OnbData) (body : String) (n : Int),
      jsParseInt body = some n → 150 < n →
      onboardingHandle env s .age d body = (s, [.reply "Please enter a valid age (0-150)."])) ∧
    (∀ (env : Env) (s : Session) (d : OnbData) (body : String) (q : JsNum),
      jsParseFloat body = some q → q.gtInt 300 = true →
      onboardingHandle env s .height d body =
        (s, [.reply "Please enter a valid height in cm (50-300)."])) ∧
    (∀ (env : Env) (s : Session) (d : FitData) (body : String) (n : Int),
      jsParseInt body = some n → n < 1 ∨ 7 < n →
      fitnessHandle env s .frequency d body =
        (s, [.reply "Please enter a number between 1-7"])) ∧
    (∀ (env : Env) (s : Session) (d : MealData) (body : String) (n : Int),
      jsParseInt body = some n → n < 3 ∨ 6 < n →
      mealsHandle env s .frequency d body =
        (s, [.reply "Please enter a number between 3-6"])) := by
  refine ⟨?_, ?_, ?_, ?_, ?_, ?_, by decide, ?_, ?_, ?_, ?_⟩
  · intro env s d body n hp
    simp [handleAssessmentResponse, assessAdvance, hp]
  · intro env s d body n hp
    simp [handleAssessmentResponse, assessAdvance, hp]
  · intro env s d body n hp
    simp [handleAssessmentResponse, assessAdvance, hp]
  · intro env s d body n hp
    simp [handleAssessmentResponse, assessAdvance, hp]
  · intro env s d body n hp
    simp [handleAssessmentResponse, assessAdvance, hp]
  · intro env s d body n hp
    simp [handleAssessmentResponse, hp]
  · intro env s d body n hp hn
    have : jsGtI (jsParseInt body) 150 = true := by simp [hp, jsGtI]; omega
    simp [onboardingHandle, this]
  · intro env s d body q hp hq
    have : jsGtQ (jsParseFloat body) 300 = true := by simp [hp, jsGtQ, hq]
    simp [onboardingHandle, this]
  · intro env s d body n hp hn
    have hr : reDigit1to7 body = false := by
      rcases h : reDigit1to7 body with _ | _
      · rfl
      · obtain ⟨a, b⟩ := reDigit1to7_bounds body n hp h
        omega
    simp [fitnessHandle, hr]
  · intro env s d body n hp hn
    have hr : reDigit3to6 body = false := by
      rcases h : reDigit3to6 body with _ | _
      · rfl
      · obtain ⟨a, b⟩ := reDigit3to6_bounds body n hp h
        omega
    simp [mealsHandle, hr]

/-- C5 witness: sleep accepts 100 and advances; fitness frequency rejects
the parsed value 8; meals frequency rejects the parsed value 7. -/
theorem C5_witness :
    handleAssessmentResponse {} {assessment := some ⟨.sleep, {}⟩} "100" =
      ({assessment := some ⟨.water, {sleepHours := some 100}⟩},
       [.reply (assessmentPrompt .water)]) ∧
    fitnessHandle {} {} .frequency {} "8" = ({}, [.reply "Please enter a number between 1-7"]) ∧
    mealsHandle {} {} .frequency {} "7" = ({}, [.reply "Please enter a number between 3-6"]) :=
  ⟨C5_assessment_range_asymmetry.1 {} {} {} "100" 100 (by decide),
   C5_assessment_range_asymmetry.2.2.2.2.2.2.2.2.2.1 {} {} {} "8" 8 (by decide) (by omega),
   C5_assessment_range_asymmetry.2.2.2.2.2.2.2.2.2.2 {} {} {} "7" 7 (by decide) (by omega)⟩

/-! ## C8: `lastActivity` and the idle reaper

No handler ever writes `lastActivity`: the field appears in the source only
inside the hourly sweep's read (line 834).  The frame lemmas below show
each handler either preserves the field or destroys the whole session. -/

/-- `handleConsentResponse` preserves `lastActivity` or clears the session. -/
theorem la_consent (s : Session) (r : String) :
    (handleConsentResponse s r).1.lastActivity = s.lastActivity ∨
      (handleConsentResponse s r).1.lastActivity = none := by
  simp only [handleConsentResponse]
  repeat' split
  all_goals try (left; rfl)
  all_goals (right; rfl)

/-- `handleAssessmentChoice` preserves `lastActivity`. -/
theorem la_choice (s : Session) (r : String) :
    (handleAssessmentChoice s r).1.lastActivity = s.lastActivity ∨
      (handleAssessmentChoice s r).1.lastActivity = none := by
  simp only [handleAssessmentChoice, initiateHealthAssessment]
  repeat' split
  all_goals try (left; rfl)

/-- `completeHealthAssessment` preserves `lastActivity`. -/
theorem la_completeAssess (env : Env) (s : Session) :
    (completeHealthAssessment env s).1.lastActivity = s.lastActivity ∨
      (completeHealthAssessment env s).1.lastActivity = none := by
  simp only [completeHealthAssessment]
  repeat' split
  all_goals try (left; rfl)

/-- `handleAssessmentResponse` preserves `lastActivity` or clears the
session. -/
theorem la_assess (env : Env) (s : Session) (r : String) :
    (handleAssessmentResponse env s r).1.lastActivity = s.lastActivity ∨
      (handleAssessmentResponse env s r).1.lastActivity = none := by
  simp only [handleAssessmentResponse, assessAdvance]
  repeat' split
  all_goals try first | (left; rfl) | (right; rfl)
  all_goals rcases la_completeAssess env _ with h | h <;> [left; right] <;> exact h

/-- The onboarding switch preserves `lastActivity`. -/
theorem la_onboarding (env : Env) (s : Session) (st : OnbStep) (d : OnbData) (b : String) :
    (onboardingHandle env s st d b).1.lastActivity = s.lastActivity ∨
      (onboardingHandle env s st d b).1.lastActivity = none := by
  simp only [onboardingHandle, completeOnboarding]
  repeat' split
  all_goals try (left; rfl)

/-- The command switch preserves `lastActivity`. -/
theorem la_command (env : Env) (s : Session) (b : String) :
    (commandHandle env s b).1.lastActivity = s.lastActivity ∨
      (commandHandle env s b).1.lastActivity = none := by
  simp only [commandHandle, handleNewUserGreeting, Cohere.generateDiagnosisResponse]
  repeat' split
  all_goals try (left; rfl)

/-- The fitness switch preserves `lastActivity`. -/
theorem la_fitness (env : Env) (s : Session) (st : FitStep) (d : FitData) (b : String) :
    (fitnessHandle env s st d b).1.lastActivity = s.lastActivity ∨
      (fitnessHandle env s st d b).1.lastActivity = none := by
  simp only [fitnessHandle]
  repeat' split
  all_goals try (left; rfl)

/-- The meals switch preserves `lastActivity`. -/
theorem la_meals (env : Env) (s : Session) (st : MealStep) (d : MealData) (b : String) :
    (mealsHandle env s st d b).1.lastActivity = s.lastActivity ∨
      (mealsHandle env s st d b).1.lastActivity = none := by
  simp only [mealsHandle]
  repeat' split
  all_goals try (left; rfl)

/-- The cycle switch preserves `lastActivity`. -/
theorem la_cycle (env : Env) (s : Session) (st : CycleStep) (d : CycleData) (b : String) :
    (cycleHandle env s st d b).1.lastActivity = s.lastActivity ∨
      (cycleHandle env s st d b).1.lastActivity = none := by
  simp only [cycleHandle]
  repeat' split
  all_goals try (left; rfl)

/-- The router as a whole never writes a timestamp into `lastActivity`. -/
theorem la_handleMessage (env : Env) (s : Session) (m : String) :
    (handleMessage env s m).1.lastActivity = s.lastActivity ∨
      (handleMessage env s m).1.lastActivity = none := by
  simp only [handleMessage, handleNewUserGreeting]
  repeat' split
  all_goals try (left; rfl)
  · exact la_assess env s _
  · exact la_consent s _
  · exact la_choice s _
  · exact la_onboarding env s _ _ _
  · exact la_command env s _
  · exact la_fitness env s _ _ _
  · exact la_meals env s _ _ _
  · exact la_cycle env s _ _ _

/-- C8 (what the code actually does): processing an inbound message never
sets `lastActivity` to a timestamp — it is preserved or the whole session
is destroyed — the hourly sweep keeps every session with no `lastActivity`,
and concretely a fresh unknown-user session is never reaped, no matter how
much later the sweep runs.  This contradicts the claim that every processed
message updates `lastActivity` and that sessions idle for more than 24
hours are destroyed. -/
theorem C8_lastActivity_never_updated :
    (∀ (env : Env) (s : Session) (m : String),
      (handleMessage env s m).1.lastActivity = s.lastActivity ∨
        (handleMessage env s m).1.lastActivity = none) ∧
    (∀ (now : Int) (s : Session), s.lastActivity = none → reaperKeeps now s = true) ∧
    (handleMessage {} {} "hello").1.lastActivity = none ∧
    reaperKeeps (30 * 24 * 60 * 60 * 1000) (handleMessage {} {} "hello").1 = true := by
  refine ⟨la_handleMessage, ?_, by decide, by decide⟩
  intro now s h
  simp [reaperKeeps, h]

/-! ## C9: best-effort plan delivery -/

/-- C9: on the final Fitness step (equipment) and the final Meals step
(frequency, with input the validator accepts), the generated plan text is
always delivered in a reply and the flow key is cleared — for every value
of the persistence flags, i.e. whether the save succeeds or throws. -/
theorem C9_plan_best_effort :
    (∀ (env : Env) (s : Session) (d : FitData) (body g : String), d.goals = some g →
      ∃ plan, generateFitnessPlan {d with equipment := some body} = some plan ∧
        (fitnessHandle env s .equipment d body).1.fitness = none ∧
        Act.reply ("Your fitness plan:\n" ++ plan) ∈ (fitnessHandle env s .equipment d body).2) ∧
    (∀ (env : Env) (s : Session) (d : MealData) (body p : String),
      d.preferences = some p → reDigit3to6 body = true →
      ∃ plan, generateMealPlan {d with frequency := some body} = some plan ∧
        (mealsHandle env s .frequency d body).1.meals = none ∧
        Act.reply ("Your meal plan:\n" ++ plan) ∈ (mealsHandle env s .frequency d body).2) := by
  constructor
  · intro env s d body g hg
    simp only [fitnessHandle]
    obtain ⟨plan, hp⟩ : ∃ plan, generateFitnessPlan {d with equipment := some body} = some plan := by
      simp [generateFitnessPlan, hg]
    refine ⟨plan, hp, ?_⟩
    rw [hp]
    rcases hok : env.saveFitnessOk <;> simp [hok]
  · intro env s d body p hpref hr
    simp only [mealsHandle, hr, Bool.not_true]
    obtain ⟨plan, hp⟩ : ∃ plan, generateMealPlan {d with frequency := some body} = some plan := by
      simp [generateMealPlan, hpref]
    refine ⟨plan, hp, ?_⟩
    rw [hp]
    rcases hok : env.saveMealOk <;> simp [hok]

/-- C9 witness: the fitness conjunct with a THROWING `db.saveFitnessPlan`
(the flow still clears and the plan reply is among the outputs), and the
meals conjunct with a succeeding save. -/
theorem C9_witness :
    (∃ plan,
      generateFitnessPlan {goals := some "muscle gain", frequency := some "4", equipment := some "none"} =
        some plan ∧
      (fitnessHandle {saveFitnessOk := false} {} .equipment
        {goals := some "muscle gain", frequency := some "4"} "none").1.fitness = none ∧
      Act.reply ("Your fitness plan:\n" ++ plan) ∈
        (fitnessHandle {saveFitnessOk := false} {} .equipment
          {goals := some "muscle gain", frequency := some "4"} "none").2) ∧
    (∃ plan,
      generateMealPlan {preferences := some "keto", allergies := some "none", frequency := some "4"} =
        some plan ∧
      (mealsHandle {} {} .frequency
        {preferences := some "keto", allergies := some "none"} "4").1.meals = none ∧
      Act.reply ("Your meal plan:\n" ++ plan) ∈
        (mealsHandle {} {} .frequency
          {preferences := some "keto", allergies := some "none"} "4").2) :=
  ⟨C9_plan_best_effort.1 {saveFitnessOk := false} {}
      {goals := some "muscle gain", frequency := some "4"} "none" "muscle gain" rfl,
   C9_plan_best_effort.2 {} {}
      {preferences := some "keto", allergies := some "none"} "4" "keto" rfl (by decide)⟩

/-! ## C10: the diagnosis double-save -/

/-- C10: on a `/diagnose` command with a non-empty argument list, when
neither save throws, the diagnosis is persisted twice with the same
symptoms and the same generated text: once inside
`Cohere.generateDiagnosisResponse` and once more by the router right after
the reply. -/
theorem C10_diagnosis_saved_twice (env : Env) (s : Session) (body : String)
    (args : List String) (h : jsSplitSpace body = "/diagnose" :: args) (ha : args ≠ [])
    (hc : env.cohereSaveOk = true) (hd : env.saveDiagnosisOk = true) :
    (Cohere.generateDiagnosisResponse env (String.intercalate " " args)).2 =
      [Act.saveDiagnosis (String.intercalate " " args)
        (env.aiDiagnosis (String.intercalate " " args))] ∧
    (commandHandle env s body).2 =
      [Act.saveDiagnosis (String.intercalate " " args)
        (env.aiDiagnosis (String.intercalate " " args)),
       Act.reply (env.aiDiagnosis (String.intercalate " " args)),
       Act.saveDiagnosis (String.intercalate " " args)
        (env.aiDiagnosis (String.intercalate " " args))] := by
  constructor
  · simp [Cohere.generateDiagnosisResponse, hc]
  · simp only [commandHandle, h, List.headD_cons, List.tail_cons]
    rw [show jsToLower "/diagnose" = "/diagnose" from by decide]
    rw [if_neg (by decide), if_pos rfl, if_neg (by simp [ha])]
    simp [Cohere.generateDiagnosisResponse, hc, hd]

/-- C10 witness: "/diagnose fever" with a concrete generated text produces
exactly the two identical save actions around the reply. -/
theorem C10_witness :
    (commandHandle {aiDiagnosis := fun _ => "Possible viral infection"} {} "/diagnose fever").2 =
      [Act.saveDiagnosis "fever" "Possible viral infection",
       Act.reply "Possible viral infection",
       Act.saveDiagnosis "fever" "Possible viral infection"] :=
  (C10_diagnosis_saved_twice {aiDiagnosis := fun _ => "Possible viral infection"} {}
    "/diagnose fever" ["fever"] (by decide) (by decide) rfl rfl).2

end Aliya
